import Mathlib

/-!
Verification of the error-normalization layer of flask-smorest
(`src/flask_smorest/err_handler.py`): the `Error` exception class, the
webargs validation-message adapter `convert_webargs_errors`, and the two
dispatcher entry points `handle_error_exception` and
`handle_http_exception`.

Python values flowing through this code (metadata bags, payload dicts,
message lists) are modelled by the inductive type `PyVal`; Python dicts
are association lists with insertion-order semantics (`dset`, `dget`,
`dmem`, `dupdate` mirror `d[k] = v`, `d[k]`/`d.get(k)`, `k in d`,
`d.update(e)`).
-/

set_option autoImplicit false

namespace FlaskSmorest

/-- A Python value as used by the error handler: `None`, strings,
integers, lists and string-keyed dicts (insertion-ordered pair lists). -/
inductive PyVal where
  | none
  | str (s : String)
  | int (n : Int)
  | list (xs : List PyVal)
  | dict (entries : List (String × PyVal))

mutual
/-- Decidable equality of `PyVal` (written by hand: the nested inductive
defeats the deriving handler). -/
def PyVal.decEq : (a b : PyVal) → Decidable (a = b)
  | .none, .none => isTrue rfl
  | .str a, .str b =>
    match String.decEq a b with
    | isTrue h => isTrue (by rw [h])
    | isFalse h => isFalse (fun he => h (PyVal.str.inj he))
  | .int a, .int b =>
    match Int.decEq a b with
    | isTrue h => isTrue (by rw [h])
    | isFalse h => isFalse (fun he => h (PyVal.int.inj he))
  | .list xs, .list ys =>
    match PyVal.decEqList xs ys with
    | isTrue h => isTrue (by rw [h])
    | isFalse h => isFalse (fun he => h (PyVal.list.inj he))
  | .dict xs, .dict ys =>
    match PyVal.decEqDict xs ys with
    | isTrue h => isTrue (by rw [h])
    | isFalse h => isFalse (fun he => h (PyVal.dict.inj he))
  | .none, .str _ => isFalse (fun h => PyVal.noConfusion h)
  | .none, .int _ => isFalse (fun h => PyVal.noConfusion h)
  | .none, .list _ => isFalse (fun h => PyVal.noConfusion h)
  | .none, .dict _ => isFalse (fun h => PyVal.noConfusion h)
  | .str _, .none => isFalse (fun h => PyVal.noConfusion h)
  | .str _, .int _ => isFalse (fun h => PyVal.noConfusion h)
  | .str _, .list _ => isFalse (fun h => PyVal.noConfusion h)
  | .str _, .dict _ => isFalse (fun h => PyVal.noConfusion h)
  | .int _, .none => isFalse (fun h => PyVal.noConfusion h)
  | .int _, .str _ => isFalse (fun h => PyVal.noConfusion h)
  | .int _, .list _ => isFalse (fun h => PyVal.noConfusion h)
  | .int _, .dict _ => isFalse (fun h => PyVal.noConfusion h)
  | .list _, .none => isFalse (fun h => PyVal.noConfusion h)
  | .list _, .str _ => isFalse (fun h => PyVal.noConfusion h)
  | .list _, .int _ => isFalse (fun h => PyVal.noConfusion h)
  | .list _, .dict _ => isFalse (fun h => PyVal.noConfusion h)
  | .dict _, .none => isFalse (fun h => PyVal.noConfusion h)
  | .dict _, .str _ => isFalse (fun h => PyVal.noConfusion h)
  | .dict _, .int _ => isFalse (fun h => PyVal.noConfusion h)
  | .dict _, .list _ => isFalse (fun h => PyVal.noConfusion h)

/-- Decidable equality of lists of `PyVal`. -/
def PyVal.decEqList : (xs ys : List PyVal) → Decidable (xs = ys)
  | [], [] => isTrue rfl
  | [], _ :: _ => isFalse (fun h => List.noConfusion h)
  | _ :: _, [] => isFalse (fun h => List.noConfusion h)
  | x :: xs, y :: ys =>
    match PyVal.decEq x y with
    | isFalse h => isFalse (fun he => h (List.head_eq_of_cons_eq he))
    | isTrue h1 =>
      match PyVal.decEqList xs ys with
      | isTrue h2 => isTrue (by rw [h1, h2])
      | isFalse h2 => isFalse (fun he => h2 (List.tail_eq_of_cons_eq he))

/-- Decidable equality of dict entry lists. -/
def PyVal.decEqDict : (xs ys : List (String × PyVal)) → Decidable (xs = ys)
  | [], [] => isTrue rfl
  | [], _ :: _ => isFalse (fun h => List.noConfusion h)
  | _ :: _, [] => isFalse (fun h => List.noConfusion h)
  | (k1, v1) :: xs, (k2, v2) :: ys =>
    match String.decEq k1 k2 with
    | isFalse h => isFalse (fun he => h (congrArg Prod.fst (List.head_eq_of_cons_eq he)))
    | isTrue hk =>
      match PyVal.decEq v1 v2 with
      | isFalse h => isFalse (fun he => h (congrArg Prod.snd (List.head_eq_of_cons_eq he)))
      | isTrue hv =>
        match PyVal.decEqDict xs ys with
        | isTrue h2 => isTrue (by rw [hk, hv, h2])
        | isFalse h2 => isFalse (fun he => h2 (List.tail_eq_of_cons_eq he))
end

instance : DecidableEq PyVal := PyVal.decEq

/-- Python truthiness: `None`, `""`, `0`, `[]` and the empty dict are falsy. -/
def truthy : PyVal → Bool
  | .none => false
  | .str s => !s.isEmpty
  | .int n => n != 0
  | .list xs => !xs.isEmpty
  | .dict es => es.isEmpty = false

/-- Whether a `PyVal` is a dict (Python `isinstance(v, dict)`). -/
def PyVal.isDict : PyVal → Bool
  | .dict _ => true
  | _ => false

mutual
/-- Python `repr` of a value (strings quoted). -/
def pyRepr : PyVal → String
  | .none => "None"
  | .str s => "\x27" ++ s ++ "\x27"
  | .int n => toString n
  | .list xs => "[" ++ pyReprList xs ++ "]"
  | .dict es => "\x7b" ++ pyReprDict es ++ "\x7d"

/-- Comma-separated `repr`s of a list of values. -/
def pyReprList : List PyVal → String
  | [] => ""
  | [x] => pyRepr x
  | x :: xs => pyRepr x ++ ", " ++ pyReprList xs

/-- Comma-separated `repr`s of a dict's entries. -/
def pyReprDict : List (String × PyVal) → String
  | [] => ""
  | [(k, v)] => "\x27" ++ k ++ "\x27: " ++ pyRepr v
  | (k, v) :: es => "\x27" ++ k ++ "\x27: " ++ pyRepr v ++ ", " ++ pyReprDict es
end

/-- Python `str` of a value (identity on strings, `repr` on containers). -/
def pyStr : PyVal → String
  | .str s => s
  | v => pyRepr v

/-- Python `k in d` on a dict. -/
def dmem (d : List (String × PyVal)) (k : String) : Bool :=
  d.any (fun p => p.1 == k)

/-- Python `d[k]`, with `None` for a missing key (missing keys are only
ever looked up where Python would supply the default `None`). -/
def dget (d : List (String × PyVal)) (k : String) : PyVal :=
  ((d.find? (fun p => p.1 == k)).map Prod.snd).getD .none

/-- Python `d[k] = v`: overwrite in place if the key exists, append otherwise. -/
def dset (d : List (String × PyVal)) (k : String) (v : PyVal) : List (String × PyVal) :=
  if dmem d k then d.map (fun p => if p.1 == k then (k, v) else p) else d ++ [(k, v)]

/-- Python `d.update(e)`: set every entry of `e` in `d`, in order. -/
def dupdate (d e : List (String × PyVal)) : List (String × PyVal) :=
  e.foldl (fun acc p => dset acc p.1 p.2) d

/-- An `Error` instance after `__init__` has run: the five attributes the
constructor assigns (`message` is a `String` because `__init__` applies
`str`). -/
structure ErrorInst where
  status_code : PyVal
  message : String
  error_type : PyVal
  errors : PyVal
  reason : PyVal
  deriving DecidableEq

namespace Error

/-- Class attribute `Error.code = 400`. -/
def code : PyVal := .int 400

/-- Class attribute `Error.msg = "Something went wrong"`. -/
def msg : PyVal := .str "Something went wrong"

/-- Class attribute `Error.error_type = "ApiException"`. -/
def error_type : PyVal := .str "ApiException"

/-- Class attribute `Error.reason = ""`. -/
def reason : PyVal := .str ""

/-- `Error.__init__(message, code, errors, error_type, reason)`: each
falsy argument falls back to the class attribute (`x or default`), and
`message` is coerced with `str`. -/
def init (message code errors error_type reason : PyVal) : ErrorInst :=
  let message := pyStr (if truthy message then message else Error.msg)
  { status_code := if truthy code then code else Error.code
    message := message
    error_type := if truthy error_type then error_type else Error.error_type
    errors := if truthy errors then errors else .list []
    reason := if truthy reason then reason else Error.reason }

end Error

/-- `Error.to_dict`: the envelope `{"error": {code, message, error_type}}`
with `reason` and `errors` appended only when truthy. -/
def ErrorInst.to_dict (e : ErrorInst) : PyVal :=
  let inner := [("code", e.status_code), ("message", PyVal.str e.message),
    ("error_type", e.error_type)]
  let inner := if truthy e.reason then inner ++ [("reason", e.reason)] else inner
  let inner := if truthy e.errors then inner ++ [("errors", e.errors)] else inner
  .dict [("error", .dict inner)]

/-- `Error(**payload)`: keyword arguments extracted from the payload dict,
missing ones defaulting to `None`. -/
def Error.fromKwargs (payload : List (String × PyVal)) : ErrorInst :=
  Error.init (dget payload "message") (dget payload "code") (dget payload "errors")
    (dget payload "error_type") (dget payload "reason")

/-- `ErrorHandlerMixin.convert_webargs_errors(messages)`: flatten the
location-type → field → messages structure into a list of sub-error
dicts, skipping non-dict levels, and wrap it in the fixed 400 /
"SchemaFieldsException" fragment. -/
def convert_webargs_errors (messages : PyVal) : List (String × PyVal) :=
  let errors : List PyVal :=
    match messages with
    | .dict entries =>
      entries.foldl (fun acc p =>
        match p.2 with
        | .dict field_errors =>
          field_errors.foldl (fun acc2 q =>
            acc2 ++ [PyVal.dict [("location", .str q.1), ("location_type", .str p.1),
              ("messages", q.2)]]) acc
        | _ => acc) []
    | _ => []
  [("code", .int 400), ("errors", .list errors),
   ("error_type", .str "SchemaFieldsException"),
   ("message", .str "Request input schema is invalid")]

/-- `ErrorHandlerMixin.handle_error_exception(error)`: returns the pair
`(error.to_dict(), error.code)`; `error.code` resolves to the class
attribute because `__init__` assigns `status_code`, never `code`. -/
def handle_error_exception (e : ErrorInst) : PyVal × PyVal :=
  (e.to_dict, Error.code)

/-- The payload dict and headers built by `handle_http_exception` before
the final `Error(**payload)` call. `data` is `getattr(error, "data", None)`:
`none` when absent, otherwise the kwargs dict stored by webargs `abort`. -/
def http_payload_headers (code : Int) (name : String)
    (data : Option (List (String × PyVal))) : List (String × PyVal) × PyVal :=
  let headers : PyVal := .dict []
  let payload : List (String × PyVal) := [("code", .int code), ("error_type", .str name)]
  match data with
  | some d =>
    if d.isEmpty then (payload, headers)
    else
      let payload := if dmem d "message" then dset payload "message" (dget d "message")
        else payload
      let payload :=
        if dmem d "errors" then dset payload "errors" (dget d "errors")
        else if dmem d "messages" then
          dupdate payload (convert_webargs_errors (dget d "messages"))
        else payload
      let headers := if dmem d "headers" then dget d "headers" else headers
      (payload, headers)
  | .none => (payload, headers)

/-- `ErrorHandlerMixin.handle_http_exception(error)`: build the payload
and headers from the exception's code, name and metadata bag, then return
`(Error(**payload).to_dict(), payload["code"], headers)`. -/
def handle_http_exception (code : Int) (name : String)
    (data : Option (List (String × PyVal))) : PyVal × PyVal × PyVal :=
  let ph := http_payload_headers code name data
  (Error.fromKwargs ph.1 |>.to_dict, dget ph.1 "code", ph.2)

/-- The value at key `k` inside the envelope's `"error"` object. -/
def envGet (v : PyVal) (k : String) : PyVal :=
  match v with
  | .dict d =>
    match dget d "error" with
    | .dict inner => dget inner k
    | _ => .none
  | _ => .none

/-- Whether the envelope's `"error"` object carries key `k` at all. -/
def envHasKey (v : PyVal) (k : String) : Bool :=
  match v with
  | .dict d =>
    match dget d "error" with
    | .dict inner => dmem inner k
    | _ => false
  | _ => false

/-- The sub-errors contributed by one location-type entry: one per field
when the entry's value is a field dict, none otherwise. -/
def subErrors (p : String × PyVal) : List PyVal :=
  match p.2 with
  | .dict field_errors =>
    field_errors.map (fun q => PyVal.dict [("location", .str q.1),
      ("location_type", .str p.1), ("messages", q.2)])
  | _ => []

/-! Helper lemmas shared by the claim theorems. -/

theorem dmem_ne_nil {d : List (String × PyVal)} {k : String} (h : dmem d k = true) :
    d.isEmpty = false := by
  cases d with
  | nil => simp [dmem] at h
  | cons a l => rfl

theorem envGet_to_dict (e : ErrorInst) :
    envGet e.to_dict "code" = e.status_code ∧
    envGet e.to_dict "message" = .str e.message ∧
    envGet e.to_dict "error_type" = e.error_type := by
  unfold ErrorInst.to_dict envGet
  by_cases hr : truthy e.reason <;> by_cases he : truthy e.errors <;>
    simp only [hr, he, if_true, if_false, Bool.false_eq_true] <;>
    exact ⟨rfl, rfl, rfl⟩

theorem envHasKey_to_dict_reason (e : ErrorInst) :
    envHasKey e.to_dict "reason" = truthy e.reason := by
  unfold ErrorInst.to_dict envHasKey
  by_cases hr : truthy e.reason <;> by_cases he : truthy e.errors <;>
    simp only [hr, he, if_true, if_false, Bool.false_eq_true] <;> rfl

theorem envHasKey_to_dict_errors (e : ErrorInst) :
    envHasKey e.to_dict "errors" = truthy e.errors := by
  unfold ErrorInst.to_dict envHasKey
  by_cases hr : truthy e.reason <;> by_cases he : truthy e.errors <;>
    simp only [hr, he, if_true, if_false, Bool.false_eq_true] <;> rfl

theorem foldl_append_singleton {α β : Type} (f : α → β) (l : List α) (acc : List β) :
    l.foldl (fun a2 q => a2 ++ [f q]) acc = acc ++ l.map f := by
  induction l generalizing acc with
  | nil => simp
  | cons x xs ih => simp [ih]

theorem subErrors_of_dict {p : String × PyVal} {fes : List (String × PyVal)}
    (hp : p.2 = .dict fes) :
    subErrors p = fes.map (fun q => PyVal.dict [("location", .str q.1),
      ("location_type", .str p.1), ("messages", q.2)]) := by
  unfold subErrors
  rw [hp]

theorem subErrors_of_nondict {p : String × PyVal} (hp : p.2.isDict = false) :
    subErrors p = [] := by
  unfold subErrors
  cases h2 : p.2 <;> simp_all [PyVal.isDict]

theorem convert_errors_foldl (entries : List (String × PyVal)) (acc : List PyVal) :
    entries.foldl (fun acc p =>
      match p.2 with
      | .dict field_errors =>
        field_errors.foldl (fun acc2 q =>
          acc2 ++ [PyVal.dict [("location", .str q.1), ("location_type", .str p.1),
            ("messages", q.2)]]) acc
      | _ => acc) acc = acc ++ entries.flatMap subErrors := by
  induction entries generalizing acc with
  | nil => simp
  | cons p ps ih =>
    rw [List.foldl_cons, List.flatMap_cons]
    cases hp : p.2 with
    | dict fes =>
      rw [subErrors_of_dict hp, ih]
      simp [foldl_append_singleton, List.append_assoc]
    | none =>
      rw [subErrors_of_nondict (by rw [hp]; rfl), ih]
      simp
    | str s =>
      rw [subErrors_of_nondict (by rw [hp]; rfl), ih]
      simp
    | int n =>
      rw [subErrors_of_nondict (by rw [hp]; rfl), ih]
      simp
    | list xs =>
      rw [subErrors_of_nondict (by rw [hp]; rfl), ih]
      simp

theorem subErrors_flatMap_filter (entries : List (String × PyVal)) :
    (entries.filter (fun p => p.2.isDict)).flatMap subErrors =
      entries.flatMap subErrors := by
  induction entries with
  | nil => rfl
  | cons p ps ih =>
    by_cases hp : p.2.isDict
    · simp [List.filter_cons, hp, List.flatMap_cons, ih]
    · have hsub : subErrors p = [] :=
        subErrors_of_nondict (by simp_all)
      simp [List.filter_cons, hp, List.flatMap_cons, ih, hsub]

theorem subErrors_flatMap_nil {entries : List (String × PyVal)}
    (h : ∀ p ∈ entries, p.2.isDict = false) : entries.flatMap subErrors = [] := by
  induction entries with
  | nil => rfl
  | cons p ps ih =>
    have hsub : subErrors p = [] := subErrors_of_nondict (h p (by simp))
    simp only [List.flatMap_cons, hsub, List.nil_append]
    exact ih (fun q hq => h q (by simp [hq]))

theorem dmem_cons (p : String × PyVal) (l : List (String × PyVal)) (k : String) :
    dmem (p :: l) k = ((p.1 == k) || dmem l k) := rfl

theorem dget_cons_pos {p : String × PyVal} {l : List (String × PyVal)} {k : String}
    (h : (p.1 == k) = true) : dget (p :: l) k = p.2 := by
  simp [dget, List.find?_cons, h]

theorem dget_cons_neg {p : String × PyVal} {l : List (String × PyVal)} {k : String}
    (h : (p.1 == k) = false) : dget (p :: l) k = dget l k := by
  simp [dget, List.find?_cons, h]

theorem dmem_filter_ne (d : List (String × PyVal)) (k k' : String) (hkk : k ≠ k') :
    dmem (d.filter (fun p => p.1 != k')) k = dmem d k := by
  induction d with
  | nil => rfl
  | cons p ps ih =>
    rw [List.filter_cons]
    by_cases hpe : p.1 = k'
    · have hf : (p.1 != k') = false := by simp [hpe]
      have hpk : (p.1 == k) = false := beq_eq_false_iff_ne.mpr (by
        rw [hpe]
        exact Ne.symm hkk)
      simp only [hf, Bool.false_eq_true, if_false]
      rw [ih, dmem_cons, hpk, Bool.false_or]
    · have hf : (p.1 != k') = true := bne_iff_ne.mpr hpe
      simp only [hf, if_true]
      rw [dmem_cons, dmem_cons, ih]

theorem dget_filter_ne (d : List (String × PyVal)) (k k' : String) (hkk : k ≠ k') :
    dget (d.filter (fun p => p.1 != k')) k = dget d k := by
  induction d with
  | nil => rfl
  | cons p ps ih =>
    rw [List.filter_cons]
    by_cases hpe : p.1 = k'
    · have hf : (p.1 != k') = false := by simp [hpe]
      have hpk : (p.1 == k) = false := beq_eq_false_iff_ne.mpr (by
        rw [hpe]
        exact Ne.symm hkk)
      simp only [hf, Bool.false_eq_true, if_false]
      rw [ih, dget_cons_neg hpk]
    · have hf : (p.1 != k') = true := bne_iff_ne.mpr hpe
      simp only [hf, if_true]
      by_cases hpk : (p.1 == k) = true
      · rw [dget_cons_pos hpk, dget_cons_pos hpk]
      · have hpk' : (p.1 == k) = false := by
          simp only [Bool.not_eq_true] at hpk
          exact hpk
        rw [dget_cons_neg hpk', dget_cons_neg hpk', ih]

/-! Characterizations of `http_payload_headers` in its three metadata
branches ("errors" present; "messages" present without "errors"; neither). -/

theorem http_payload_errors_branch (code : Int) (name : String)
    (d : List (String × PyVal)) (he : dmem d "errors" = true) :
    http_payload_headers code name (some d) =
      ((if dmem d "message" then
          [("code", .int code), ("error_type", .str name),
           ("message", dget d "message"), ("errors", dget d "errors")]
        else
          [("code", .int code), ("error_type", .str name),
           ("errors", dget d "errors")]),
       if dmem d "headers" then dget d "headers" else .dict []) := by
  have hne : d.isEmpty = false := dmem_ne_nil he
  by_cases hmsg : dmem d "message" <;>
    simp [http_payload_headers, hne, he, hmsg] <;> rfl

theorem http_payload_messages_branch (code : Int) (name : String)
    (d : List (String × PyVal)) (hm : dmem d "messages" = true)
    (he : dmem d "errors" = false) :
    http_payload_headers code name (some d) =
      ((if dmem d "message" then
          [("code", .int 400), ("error_type", .str "SchemaFieldsException"),
           ("message", .str "Request input schema is invalid"),
           ("errors", dget (convert_webargs_errors (dget d "messages")) "errors")]
        else
          [("code", .int 400), ("error_type", .str "SchemaFieldsException"),
           ("errors", dget (convert_webargs_errors (dget d "messages")) "errors"),
           ("message", .str "Request input schema is invalid")]),
       if dmem d "headers" then dget d "headers" else .dict []) := by
  have hne : d.isEmpty = false := dmem_ne_nil hm
  by_cases hmsg : dmem d "message" <;>
    simp [http_payload_headers, hne, he, hm, hmsg] <;> rfl

theorem http_payload_plain_branch (code : Int) (name : String)
    (d : List (String × PyVal)) (hne : d.isEmpty = false)
    (he : dmem d "errors" = false) (hm : dmem d "messages" = false) :
    http_payload_headers code name (some d) =
      ((if dmem d "message" then
          [("code", .int code), ("error_type", .str name),
           ("message", dget d "message")]
        else
          [("code", .int code), ("error_type", .str name)]),
       if dmem d "headers" then dget d "headers" else .dict []) := by
  by_cases hmsg : dmem d "message"
  · simp [http_payload_headers, hne, he, hm, hmsg]
    rfl
  · simp [http_payload_headers, hne, he, hm, hmsg]

theorem env_fixed_facts (P : List (String × PyVal))
    (hc : dget P "code" = .int 400)
    (ht : dget P "error_type" = .str "SchemaFieldsException")
    (hmsg : dget P "message" = .str "Request input schema is invalid") :
    envGet (Error.fromKwargs P).to_dict "code" = .int 400 ∧
    envGet (Error.fromKwargs P).to_dict "error_type" = .str "SchemaFieldsException" ∧
    envGet (Error.fromKwargs P).to_dict "message" =
      .str "Request input schema is invalid" := by
  obtain ⟨h1, h2, h3⟩ := envGet_to_dict (Error.fromKwargs P)
  rw [h1, h2, h3]
  unfold Error.fromKwargs Error.init
  rw [hc, ht, hmsg]
  exact ⟨rfl, rfl, rfl⟩

/-! Claim theorems. -/

/-- C1 (counterexample): the claim says `handle_error_exception` returns
the instance's status code. For `Error(code=404)` the envelope's code
field is 404 but the handler returns the class attribute 400, so the
returned status does not equal the instance's `status_code`. -/
theorem handle_error_exception_counterexample :
    (handle_error_exception (Error.init .none (.int 404) .none .none .none)).2 = .int 400 ∧
    (Error.init .none (.int 404) .none .none .none).status_code = .int 404 ∧
    (handle_error_exception (Error.init .none (.int 404) .none .none .none)).2 ≠
      (Error.init .none (.int 404) .none .none .none).status_code := by
  refine ⟨rfl, rfl, ?_⟩
  decide

/-- C1 (amended): `handle_error_exception` returns the pair
`(err.render(), Error.code)` — no headers component, and the status is
the class-level constant 400 (`__init__` never assigns an instance
`code`), not the instance's `status_code`; the envelope's code field
still reflects any constructor code override. -/
theorem handle_error_exception_spec (message code errors error_type reason : PyVal) :
    handle_error_exception (Error.init message code errors error_type reason) =
      ((Error.init message code errors error_type reason).to_dict, .int 400) ∧
    envGet (Error.init message code errors error_type reason).to_dict "code" =
      (if truthy code then code else .int 400) := by
  refine ⟨rfl, ?_⟩
  exact (envGet_to_dict (Error.init message code errors error_type reason)).1

/-- C4 (counterexample): with no metadata, the payload has no message, so
`Error(**payload)` falls back to the class default "Something went wrong";
the envelope's message is not the exception's name "Not Found" as the
claim states. -/
theorem handle_http_exception_no_data_counterexample :
    envGet (handle_http_exception 404 "Not Found" Option.none).1 "message" =
      .str "Something went wrong" ∧
    envGet (handle_http_exception 404 "Not Found" Option.none).1 "message" ≠
      .str "Not Found" := by
  refine ⟨rfl, ?_⟩
  decide

/-- C4 (amended): with code=404, name="Not Found" and no metadata bag,
the payload is seeded with only code and error_type, and the result is
the envelope `{error: {code: 404, message: "Something went wrong",
error_type: "Not Found"}}` (message falls back to the class default) with
HTTP status 404 and empty headers. -/
theorem handle_http_exception_no_data :
    http_payload_headers 404 "Not Found" Option.none =
      ([("code", .int 404), ("error_type", .str "Not Found")], .dict []) ∧
    handle_http_exception 404 "Not Found" Option.none =
      (.dict [("error", .dict [("code", .int 404),
        ("message", .str "Something went wrong"),
        ("error_type", .str "Not Found")])], .int 404, .dict []) := by
  exact ⟨rfl, rfl⟩

/-- C8: an `Error` constructed with no overrides renders exactly
`{error: {code: 400, message: "Something went wrong",
error_type: "ApiException"}}`, with no reason or errors keys. -/
theorem error_default_render :
    (Error.init .none .none .none .none .none).to_dict =
      .dict [("error", .dict [("code", .int 400),
        ("message", .str "Something went wrong"),
        ("error_type", .str "ApiException")])] := by
  rfl

/-- C9: when an `Error` instance's reason is the empty string, the
rendered envelope has no "reason" key, and when its errors value is the
empty list, it has no "errors" key. -/
theorem to_dict_omits_empty_reason_errors (e : ErrorInst) :
    (e.reason = .str "" → envHasKey e.to_dict "reason" = false) ∧
    (e.errors = .list [] → envHasKey e.to_dict "errors" = false) := by
  constructor
  · intro h
    rw [envHasKey_to_dict_reason, h]
    rfl
  · intro h
    rw [envHasKey_to_dict_errors, h]
    rfl

/-- Witness for C9 at the default-constructed instance, whose reason is
`""` and whose errors value is `[]`. -/
theorem to_dict_omits_empty_reason_errors_witness :
    envHasKey (Error.init .none .none .none .none .none).to_dict "reason" = false ∧
    envHasKey (Error.init .none .none .none .none .none).to_dict "errors" = false :=
  ⟨(to_dict_omits_empty_reason_errors (Error.init .none .none .none .none .none)).1 rfl,
   (to_dict_omits_empty_reason_errors (Error.init .none .none .none .none .none)).2 rfl⟩

/-- C10: any falsy constructor argument falls back to the class default
(status code 400, message "Something went wrong", error_type
"ApiException", reason ""), and a truthy message is coerced with
Python `str`. -/
theorem error_init_falsy_defaults (message code errors error_type reason : PyVal) :
    (truthy code = false →
      (Error.init message code errors error_type reason).status_code = .int 400) ∧
    (truthy message = false →
      (Error.init message code errors error_type reason).message = "Something went wrong") ∧
    (truthy error_type = false →
      (Error.init message code errors error_type reason).error_type = .str "ApiException") ∧
    (truthy reason = false →
      (Error.init message code errors error_type reason).reason = .str "") ∧
    (truthy errors = false →
      (Error.init message code errors error_type reason).errors = .list []) ∧
    (truthy message = true →
      (Error.init message code errors error_type reason).message = pyStr message) := by
  unfold Error.init
  refine ⟨fun h => ?_, fun h => ?_, fun h => ?_, fun h => ?_, fun h => ?_, fun h => ?_⟩ <;>
    simp only [h, if_true, if_false, Bool.false_eq_true] <;> rfl

/-- Witness for C10: `Error(message="", code=0, errors=[], error_type="",
reason=None)` gets every class default, and `Error(message=7)` stores
`str(7)`. -/
theorem error_init_falsy_defaults_witness :
    (Error.init (.str "") (.int 0) (.list []) (.str "") .none).status_code = .int 400 ∧
    (Error.init (.str "") (.int 0) (.list []) (.str "") .none).message =
      "Something went wrong" ∧
    (Error.init (.str "") (.int 0) (.list []) (.str "") .none).error_type =
      .str "ApiException" ∧
    (Error.init (.str "") (.int 0) (.list []) (.str "") .none).reason = .str "" ∧
    (Error.init (.str "") (.int 0) (.list []) (.str "") .none).errors = .list [] ∧
    (Error.init (.int 7) .none .none .none .none).message = pyStr (.int 7) :=
  ⟨(error_init_falsy_defaults (.str "") (.int 0) (.list []) (.str "") .none).1 rfl,
   (error_init_falsy_defaults (.str "") (.int 0) (.list []) (.str "") .none).2.1 rfl,
   (error_init_falsy_defaults (.str "") (.int 0) (.list []) (.str "") .none).2.2.1 rfl,
   (error_init_falsy_defaults (.str "") (.int 0) (.list []) (.str "") .none).2.2.2.1 rfl,
   (error_init_falsy_defaults (.str "") (.int 0) (.list []) (.str "") .none).2.2.2.2.1 rfl,
   (error_init_falsy_defaults (.int 7) .none .none .none .none).2.2.2.2.2 rfl⟩

/-- C6: on a dict input, `convert_webargs_errors` yields exactly one
sub-error per (location_type, field) pair, in the input's iteration order
(location groups first, then fields within each group), with the messages
value passed through verbatim; and on every input its fragment carries
code 400, error_type "SchemaFieldsException" and message "Request input
schema is invalid". -/
theorem convert_webargs_errors_spec :
    (∀ entries : List (String × PyVal),
      convert_webargs_errors (.dict entries) =
        [("code", .int 400), ("errors", .list (entries.flatMap subErrors)),
         ("error_type", .str "SchemaFieldsException"),
         ("message", .str "Request input schema is invalid")]) ∧
    (∀ m : PyVal,
      dget (convert_webargs_errors m) "code" = .int 400 ∧
      dget (convert_webargs_errors m) "error_type" = .str "SchemaFieldsException" ∧
      dget (convert_webargs_errors m) "message" = .str "Request input schema is invalid") := by
  constructor
  · intro entries
    simp only [convert_webargs_errors]
    rw [convert_errors_foldl]
    simp
  · intro m
    exact ⟨rfl, rfl, rfl⟩

/-- C7: location-type entries whose value is not itself a dict are
silently skipped (the output equals the output on the input with those
entries filtered away, and no exception can arise since the function is
total), and when no entry is a dict the resulting errors list is empty. -/
theorem convert_webargs_errors_skips_nondict (entries : List (String × PyVal)) :
    convert_webargs_errors (.dict entries) =
      convert_webargs_errors (.dict (entries.filter (fun p => p.2.isDict))) ∧
    ((∀ p ∈ entries, p.2.isDict = false) →
      dget (convert_webargs_errors (.dict entries)) "errors" = .list []) := by
  constructor
  · simp only [convert_webargs_errors]
    rw [convert_errors_foldl, convert_errors_foldl, subErrors_flatMap_filter]
  · intro h
    simp only [convert_webargs_errors]
    rw [convert_errors_foldl, subErrors_flatMap_nil h]
    rfl

/-- Witness for C7 on the metadata `{"json": "not a dict"}`: the errors
list comes out empty. -/
theorem convert_webargs_errors_skips_nondict_witness :
    dget (convert_webargs_errors (.dict [("json", .str "not a dict")])) "errors" =
      .list [] :=
  (convert_webargs_errors_skips_nondict [("json", .str "not a dict")]).2 (by decide)

theorem fromKwargs_message (P : List (String × PyVal)) :
    (Error.fromKwargs P).message =
      pyStr (if truthy (dget P "message") then dget P "message" else Error.msg) := rfl

/-- C2: when the metadata bag contains "messages" and not "errors", the
adapter merge overwrites the payload: the returned HTTP status is 400 and
the envelope carries code 400, error_type "SchemaFieldsException" and
message "Request input schema is invalid", whatever the exception's own
code, name, or metadata message were. -/
theorem handle_http_exception_messages_overwrite (code : Int) (name : String)
    (d : List (String × PyVal)) (hm : dmem d "messages" = true)
    (he : dmem d "errors" = false) :
    (handle_http_exception code name (some d)).2.1 = .int 400 ∧
    envGet (handle_http_exception code name (some d)).1 "code" = .int 400 ∧
    envGet (handle_http_exception code name (some d)).1 "error_type" =
      .str "SchemaFieldsException" ∧
    envGet (handle_http_exception code name (some d)).1 "message" =
      .str "Request input schema is invalid" := by
  have hP := http_payload_messages_branch code name d hm he
  have hc : dget (http_payload_headers code name (some d)).1 "code" = .int 400 := by
    rw [hP]
    by_cases hmsg : dmem d "message"
    · simp only [hmsg]
      rfl
    · simp only [Bool.not_eq_true] at hmsg
      simp only [hmsg]
      rfl
  have het : dget (http_payload_headers code name (some d)).1 "error_type" =
      .str "SchemaFieldsException" := by
    rw [hP]
    by_cases hmsg : dmem d "message"
    · simp only [hmsg]
      rfl
    · simp only [Bool.not_eq_true] at hmsg
      simp only [hmsg]
      rfl
  have hms : dget (http_payload_headers code name (some d)).1 "message" =
      .str "Request input schema is invalid" := by
    rw [hP]
    by_cases hmsg : dmem d "message"
    · simp only [hmsg]
      rfl
    · simp only [Bool.not_eq_true] at hmsg
      simp only [hmsg]
      rfl
  have h1 : (handle_http_exception code name (some d)).1 =
      (Error.fromKwargs (http_payload_headers code name (some d)).1).to_dict := rfl
  have h2 : (handle_http_exception code name (some d)).2.1 =
      dget (http_payload_headers code name (some d)).1 "code" := rfl
  obtain ⟨e1, e2, e3⟩ := env_fixed_facts _ hc het hms
  refine ⟨?_, ?_, ?_, ?_⟩
  · rw [h2]
    exact hc
  · rw [h1]
    exact e1
  · rw [h1]
    exact e2
  · rw [h1]
    exact e3

/-- Witness for C2 on a 404 exception carrying validation messages for
field "age": the status and envelope are forced to the adapter's fixed
400 / "SchemaFieldsException" / "Request input schema is invalid". -/
theorem handle_http_exception_messages_overwrite_witness :
    (handle_http_exception 404 "Not Found"
      (some [("messages", .dict [("query", .dict [("age",
        .list [.str "Not a valid integer."])])])])).2.1 = .int 400 ∧
    envGet (handle_http_exception 404 "Not Found"
      (some [("messages", .dict [("query", .dict [("age",
        .list [.str "Not a valid integer."])])])])).1 "error_type" =
      .str "SchemaFieldsException" ∧
    envGet (handle_http_exception 404 "Not Found"
      (some [("messages", .dict [("query", .dict [("age",
        .list [.str "Not a valid integer."])])])])).1 "message" =
      .str "Request input schema is invalid" :=
  ⟨(handle_http_exception_messages_overwrite 404 "Not Found"
      [("messages", .dict [("query", .dict [("age", .list [.str "Not a valid integer."])])])]
      (by decide) (by decide)).1,
   (handle_http_exception_messages_overwrite 404 "Not Found"
      [("messages", .dict [("query", .dict [("age", .list [.str "Not a valid integer."])])])]
      (by decide) (by decide)).2.2.1,
   (handle_http_exception_messages_overwrite 404 "Not Found"
      [("messages", .dict [("query", .dict [("age", .list [.str "Not a valid integer."])])])]
      (by decide) (by decide)).2.2.2⟩

/-- C3 (counterexample): with metadata containing both "message" and
"messages" (and no "errors"), the adapter merge overwrites the explicit
message: the final envelope message is "Request input schema is invalid",
not the metadata's "custom". -/
theorem handle_http_exception_message_overwritten :
    envGet (handle_http_exception 404 "Not Found"
      (some [("message", .str "custom"),
        ("messages", .dict [("query", .dict [("age",
          .list [.str "bad"])])])])).1 "message" =
      .str "Request input schema is invalid" ∧
    envGet (handle_http_exception 404 "Not Found"
      (some [("message", .str "custom"),
        ("messages", .dict [("query", .dict [("age",
          .list [.str "bad"])])])])).1 "message" ≠ .str "custom" := by
  refine ⟨rfl, ?_⟩
  decide

/-- C3 (amended): a truthy metadata "message" survives into the envelope
when the bag has "errors" or has no "messages"; but when "messages" is
present without "errors", the adapter merge overwrites it with "Request
input schema is invalid". -/
theorem handle_http_exception_message_precedence (code : Int) (name : String)
    (d : List (String × PyVal)) (hmem : dmem d "message" = true)
    (ht : truthy (dget d "message") = true) :
    (dmem d "errors" = true →
      envGet (handle_http_exception code name (some d)).1 "message" =
        .str (pyStr (dget d "message"))) ∧
    (dmem d "errors" = false → dmem d "messages" = false →
      envGet (handle_http_exception code name (some d)).1 "message" =
        .str (pyStr (dget d "message"))) ∧
    (dmem d "errors" = false → dmem d "messages" = true →
      envGet (handle_http_exception code name (some d)).1 "message" =
        .str "Request input schema is invalid") := by
  have h1 : (handle_http_exception code name (some d)).1 =
      (Error.fromKwargs (http_payload_headers code name (some d)).1).to_dict := rfl
  have hne : d.isEmpty = false := dmem_ne_nil hmem
  refine ⟨fun he => ?_, fun he hm => ?_, fun he hm => ?_⟩
  · have hP := http_payload_errors_branch code name d he
    have hm2 : dget (http_payload_headers code name (some d)).1 "message" =
        dget d "message" := by
      rw [hP]
      simp only [hmem]
      rfl
    rw [h1, (envGet_to_dict _).2.1, fromKwargs_message, hm2]
    simp only [ht]
    rfl
  · have hP := http_payload_plain_branch code name d hne he hm
    have hm2 : dget (http_payload_headers code name (some d)).1 "message" =
        dget d "message" := by
      rw [hP]
      simp only [hmem]
      rfl
    rw [h1, (envGet_to_dict _).2.1, fromKwargs_message, hm2]
    simp only [ht]
    rfl
  · have hP := http_payload_messages_branch code name d hm he
    have hm2 : dget (http_payload_headers code name (some d)).1 "message" =
        .str "Request input schema is invalid" := by
      rw [hP]
      simp only [hmem]
      rfl
    rw [h1, (envGet_to_dict _).2.1, fromKwargs_message, hm2]
    rfl

/-- Witness for C3: the metadata message "custom" reaches the envelope
alongside verbatim "errors", and is overwritten when "messages" triggers
the adapter instead. -/
theorem handle_http_exception_message_precedence_witness :
    envGet (handle_http_exception 404 "Not Found"
      (some [("message", .str "custom"), ("errors", .list [.str "E"])])).1 "message" =
      .str "custom" ∧
    envGet (handle_http_exception 404 "Not Found"
      (some [("message", .str "custom"),
        ("messages", .dict [("query", .dict [("age",
          .list [.str "bad"])])])])).1 "message" =
      .str "Request input schema is invalid" :=
  ⟨(handle_http_exception_message_precedence 404 "Not Found"
      [("message", .str "custom"), ("errors", .list [.str "E"])]
      (by decide) (by decide)).1 (by decide),
   (handle_http_exception_message_precedence 404 "Not Found"
      [("message", .str "custom"),
        ("messages", .dict [("query", .dict [("age", .list [.str "bad"])])])]
      (by decide) (by decide)).2.2 (by decide) (by decide)⟩

/-- C5: when the metadata bag contains both "errors" and "messages", the
payload's errors value is the metadata's "errors" verbatim, and the whole
result is unchanged if every "messages" entry is removed from the bag —
the "messages" branch (the adapter) never runs. -/
theorem handle_http_exception_errors_over_messages (code : Int) (name : String)
    (d : List (String × PyVal)) (he : dmem d "errors" = true)
    (_hm : dmem d "messages" = true) :
    dget (http_payload_headers code name (some d)).1 "errors" = dget d "errors" ∧
    handle_http_exception code name (some d) =
      handle_http_exception code name (some (d.filter (fun p => p.1 != "messages"))) := by
  have hP := http_payload_errors_branch code name d he
  constructor
  · rw [hP]
    by_cases hmsg : dmem d "message"
    · simp only [hmsg]
      rfl
    · simp only [Bool.not_eq_true] at hmsg
      simp only [hmsg]
      rfl
  · have he' : dmem (d.filter (fun p => p.1 != "messages")) "errors" = true := by
      rw [dmem_filter_ne d "errors" "messages" (by decide)]
      exact he
    have hP' := http_payload_errors_branch code name
      (d.filter (fun p => p.1 != "messages")) he'
    simp only [handle_http_exception]
    rw [hP, hP', dmem_filter_ne d "message" "messages" (by decide),
      dget_filter_ne d "message" "messages" (by decide),
      dget_filter_ne d "errors" "messages" (by decide),
      dmem_filter_ne d "headers" "messages" (by decide),
      dget_filter_ne d "headers" "messages" (by decide)]

/-- Witness for C5 on a bag with both "errors" and "messages": the
payload takes the "errors" value and the result equals the result with
"messages" dropped. -/
theorem handle_http_exception_errors_over_messages_witness :
    dget (http_payload_headers 422 "Unprocessable Entity"
      (some [("errors", .list [.str "verbatim"]),
        ("messages", .dict [("query", .dict [("age",
          .list [.str "bad"])])])])).1 "errors" =
      dget [("errors", PyVal.list [.str "verbatim"]),
        ("messages", PyVal.dict [("query", .dict [("age",
          .list [.str "bad"])])])] "errors" ∧
    handle_http_exception 422 "Unprocessable Entity"
      (some [("errors", .list [.str "verbatim"]),
        ("messages", .dict [("query", .dict [("age", .list [.str "bad"])])])]) =
    handle_http_exception 422 "Unprocessable Entity"
      (some ([("errors", PyVal.list [.str "verbatim"]),
        ("messages", PyVal.dict [("query", .dict [("age",
          .list [.str "bad"])])])].filter (fun p => p.1 != "messages"))) :=
  ⟨(handle_http_exception_errors_over_messages 422 "Unprocessable Entity"
      [("errors", .list [.str "verbatim"]),
        ("messages", .dict [("query", .dict [("age", .list [.str "bad"])])])]
      (by decide) (by decide)).1,
   (handle_http_exception_errors_over_messages 422 "Unprocessable Entity"
      [("errors", .list [.str "verbatim"]),
        ("messages", .dict [("query", .dict [("age", .list [.str "bad"])])])]
      (by decide) (by decide)).2⟩

end FlaskSmorest
